import Mathlib

/-!
Verification development for the Timescale/Postgres reporter of this
repository (file `locust_extensions/reporter.py`).

The reporter buffers per-request samples appended by locust event handlers,
flushes them to a database from a background greenlet, writes run lifecycle
records, and coordinates shutdown.  Everything below is a shallow embedding
of that code:

* Python dicts built by `_log_request` become the `Sample` structure.
* The mutable reporter fields (`_samples`, `_finished`, connection state)
  become the `RState` structure, threaded explicitly.
* Database effects (`cursor.execute` / `executemany`) are recorded in an
  explicit `db` journal; `logging.error` / `logging.info` output is recorded
  in `errors` / `infos` lists.
* gevent scheduling is cooperative: appends and the take-and-reset drain of
  `_run` contain no yield point, so each is modelled as one atomic step of a
  trace of `Activity` steps executed on a single execution context.
* psycopg2 specifics that the code relies on are modelled directly:
  executing on a closed cursor raises an `InterfaceError`, which is a
  subclass of `psycopg2.Error` and hence caught by the `except` clauses in
  the source; closing an already closed cursor or connection is a no-op.
* datetimes (`run_id`, sample times, `end_time`) are modelled as natural
  numbers of epoch seconds; `dateutil.parser.parse` of the externally
  supplied `LOCUST_RUN_ID` string is modelled as the timestamp it denotes.
* `repr(error)` suffixes of logged database error messages are abstracted
  away: only the fixed message text is recorded.
-/

/-- A Python exception object as passed to the failure handler.  Exception
instances are truthy in Python, so the possibly absent argument is modelled
as `Option PyExc`; `repr(e)` is modelled by the carried `reprStr` field. -/
structure PyExc where
  reprStr : String
deriving Repr, DecidableEq

/-- The sample dict built by `Reporter._log_request` (reporter.py lines
125-145), one row of the `request` table. -/
structure Sample where
  time : Nat
  run_id : Nat
  greenlet_id : Int
  loadgen : String
  name : String
  request_type : String
  response_time : Int
  success : Nat
  testplan : String
  response_length : Option Int
  exception : Option String
deriving Repr, DecidableEq

/-- One SQL statement successfully executed against the database, as issued
by the reporter. -/
inductive DbWrite
  | requestBatch (samples : List Sample)
  | testrunInsert (run_id : Nat) (testplan profile_name : String)
      (num_clients : String ⊕ Nat) (rps description : String)
  | eventsInsert (time : Nat) (text : String)
  | testrunUpdate (end_time : Nat) (run_id : Nat)
deriving Repr, DecidableEq

/-- The immutable per-reporter configuration fixed by `Reporter.__init__`:
`_testplan`, `_profile_name`, `_description`, `_rps`, `_hostname`,
`_run_id`, the invocation arguments `sys.argv` and the `LOCUST_GRAFANA_URL`
base. -/
structure Reporter where
  testplan : String
  profile_name : String
  description : String
  argv : List String
  grafanaUrl : String
  hostname : String
  rps : String
  run_id : Nat
deriving Repr, DecidableEq

/-- The mutable state of a reporter: the sample buffer `_samples`, the
`_finished` flag, connection/cursor status, registration status, the journal
of executed database writes and the logging output.  The `drained` field is
a history variable recording each batch taken out of the buffer by the
background flusher, in order. -/
structure RState where
  connOpened : Bool := false
  connClosed : Bool := false
  handlersRegistered : Bool := false
  atexitRegistered : Bool := false
  finished : Bool := false
  samples : List Sample := []
  drained : List (List Sample) := []
  db : List DbWrite := []
  errors : List String := []
  infos : List String := []
deriving Repr, DecidableEq

/-- An error escaping `Reporter.__init__`. -/
inductive PyErr
  | connectError
  | assertionError
  | indexError
deriving Repr, DecidableEq

/-- Result of running `Reporter.__init__`: the state reached, the
constructed reporter when construction completed, and the raised error when
it did not. -/
structure InitResult where
  state : RState
  reporter : Option Reporter
  err : Option PyErr
deriving Repr, DecidableEq

/-- Message logged when connecting to Postgres fails (reporter.py lines
59-61). -/
def pgEnvGuidanceMsg : String :=
  "Use standard postgres env vars to specify where to report locust samples (https://www.postgresql.org/docs/11/libpq-envars.html)"

/-- Message logged when writing a sample batch fails (reporter.py line 110);
the repr of the psycopg2 error is abstracted away. -/
def samplesWriteFailMsg : String :=
  "Failed to write samples to Postgresql timescale database: "

/-- Message logged when the run-end update fails (reporter.py lines
179-182); the repr of the psycopg2 error is abstracted away. -/
def stopWriteFailMsg : String :=
  "Failed to update testrun record (or events) with end time to Postgresql timescale database: "

/-- Function `is_slave` (reporter.py lines 195-196). -/
def isSlave (argv : List String) : Bool :=
  argv.contains "--slave"

/-- Function `is_master` (reporter.py lines 199-200). -/
def isMaster (argv : List String) : Bool :=
  argv.contains "--master"

/-- The run id chosen by `Reporter.__init__` (reporter.py lines 71-76): on a
swarm master or slave it is parsed from the `LOCUST_RUN_ID` environment
variable (modelled as the timestamp `envRunId` that the string denotes),
otherwise it is the current wall-clock time `now`. -/
def initRunId (argv : List String) (envRunId now : Nat) : Nat :=
  if isSlave argv || isMaster argv then envRunId else now

/-- The sample dict built by `Reporter._log_request` (reporter.py lines
118-145).  `response_length` is kept only when the reported length is
non-negative; `exception` is kept (as its repr) only when an exception
object was passed, since `None` is falsy and exception instances are
truthy. -/
def mkSample (r : Reporter) (request_type name : String)
    (response_time response_length : Int) (success : Nat)
    (exc : Option PyExc) (gid : Int) (time : Nat) : Sample :=
  { time := time
    run_id := r.run_id
    greenlet_id := gid
    loadgen := r.hostname
    name := name
    request_type := request_type
    response_time := response_time
    success := success
    testplan := r.testplan
    response_length := if 0 ≤ response_length then some response_length else none
    exception := Option.map PyExc.reprStr exc }

/-- The sample built by the success handler `Reporter.request_success`
(reporter.py lines 149-150): success flag 1 and no exception. -/
def successSample (r : Reporter) (request_type name : String)
    (response_time response_length : Int) (gid : Int) (time : Nat) : Sample :=
  mkSample r request_type name response_time response_length 1 none gid time

/-- The sample built by the failure handler `Reporter.request_failure`
(reporter.py lines 152-153): response length -1 and success flag 0. -/
def failureSample (r : Reporter) (request_type name : String)
    (response_time : Int) (exc : Option PyExc) (gid : Int) (time : Nat) : Sample :=
  mkSample r request_type name response_time (-1) 0 exc gid time

/-- Handler `Reporter.request_success`: builds a sample and appends it to
the buffer (`self._samples.append(sample)`, reporter.py line 147). -/
def request_success (r : Reporter) (request_type name : String)
    (response_time response_length : Int) (gid : Int) (time : Nat)
    (s : RState) : RState :=
  { s with samples :=
      s.samples ++ [successSample r request_type name response_time response_length gid time] }

/-- Handler `Reporter.request_failure`: builds a sample and appends it to
the buffer. -/
def request_failure (r : Reporter) (request_type name : String)
    (response_time : Int) (exc : Option PyExc) (gid : Int) (time : Nat)
    (s : RState) : RState :=
  { s with samples :=
      s.samples ++ [failureSample r request_type name response_time exc gid time] }

/-- Method `Reporter.write_samples_to_db` (reporter.py lines 102-110): one
batched insert of the whole batch; a psycopg2 error (including the
`InterfaceError` raised by executing on a closed cursor) is caught and
logged, and the batch is dropped.  The boolean `ok` is the oracle for
whether the database accepts the batch. -/
def write_samples_to_db (ok : Bool) (batch : List Sample) (s : RState) : RState :=
  if s.connClosed || !ok then
    { s with errors := s.errors ++ [samplesWriteFailMsg] }
  else
    { s with db := s.db ++ [DbWrite.requestBatch batch] }

/-- The drain-and-write step of the flusher loop body (reporter.py lines
94-96): `samples_buffer = self._samples; self._samples = []` is the atomic
take-and-reset (no yield point between the two assignments), then the taken
batch is handed to `write_samples_to_db`.  The taken batch is also recorded
in the `drained` history variable. -/
def drainAndWrite (ok : Bool) (s : RState) : RState :=
  write_samples_to_db ok s.samples
    { s with samples := [], drained := s.drained ++ [s.samples] }

/-- One iteration of the `Reporter._run` loop body (reporter.py lines
90-100) while the loop is not exiting: drain and write when the buffer is
non-empty, otherwise do nothing (the `break` on `_finished` is modelled by
`runFlusherLoop` below). -/
def flusherTick (ok : Bool) (s : RState) : RState :=
  if s.samples.isEmpty then s else drainAndWrite ok s

/-- The `Reporter._run` loop run to its exit (reporter.py lines 89-100),
with fuel bounding the number of iterations: each iteration drains and
writes a non-empty buffer, and exits once the buffer is empty and
`_finished` is set.  Returns the state at loop exit together with the
number of iterations executed, or `none` when the fuel is exhausted before
the loop exits.  During the `join` in `quitting` no other task appends
(shutdown), so fuel 2 suffices once `_finished` holds. -/
def runFlusherLoop (ok : Bool) : Nat → RState → Option (RState × Nat)
  | 0, _ => none
  | fuel + 1, s =>
    if s.samples.isEmpty then
      if s.finished then some (s, 1)
      else Option.map (fun p => (p.1, p.2 + 1)) (runFlusherLoop ok fuel s)
    else Option.map (fun p => (p.1, p.2 + 1)) (runFlusherLoop ok fuel (drainAndWrite ok s))

/-- The Grafana report line logged by `Reporter.log_stop_test_run`
(reporter.py lines 183-185). -/
def dashboardReportLine (base tp : String) (runId endTime : Nat) : String :=
  "Report: " ++ base ++ "&var-testplan=" ++ tp ++ "&from=" ++ toString (runId * 1000) ++
    "&to=" ++ toString ((endTime + 1) * 1000) ++ "\n"

/-- Method `Reporter.log_stop_test_run` (reporter.py lines 171-185): tries
to update the testrun row with the end time and insert a finished event;
a psycopg2 error (in particular executing on a closed cursor) is caught and
logged; the Grafana report line is logged unconditionally afterwards. -/
def log_stop_test_run (r : Reporter) (endTime : Nat) (s : RState) : RState :=
  let s1 :=
    if s.connClosed then { s with errors := s.errors ++ [stopWriteFailMsg] }
    else
      { s with db := s.db ++
          [DbWrite.testrunUpdate endTime r.run_id,
           DbWrite.eventsInsert endTime (r.testplan ++ " finished")] }
  { s1 with infos := s1.infos ++ [dashboardReportLine r.grafanaUrl r.testplan r.run_id endTime] }

/-- Method `Reporter.exit` (reporter.py lines 187-192): on a master or
standalone run write the run-end records, then close cursor and connection.
The connection object is always truthy, and psycopg2 close calls are no-ops
on an already closed cursor or connection, so closing is modelled as simply
setting `connClosed`. -/
def exitR (r : Reporter) (endTime : Nat) (s : RState) : RState :=
  let s1 := if isSlave r.argv then s else log_stop_test_run r endTime s
  { s1 with connClosed := true }

/-- Method `Reporter.quitting` (reporter.py lines 112-116): set `_finished`,
clear the atexit registration, join the background flusher greenlet (run its
loop to exit), then run the exit sequence on the joined state. -/
def quittingFn (r : Reporter) (ok : Bool) (endTime : Nat) (s : RState) : RState :=
  let s1 := { s with finished := true, atexitRegistered := false }
  match runFlusherLoop ok 2 s1 with
  | some (s2, _) => exitR r endTime s2
  | none => s1

/-- The `num_clients` computation of `Reporter.log_start_testrun`
(reporter.py lines 156-159): start from the integer 1, then for each
element equal to `"-c"` take the next element of the argument vector (the
element at `index + 1`, which during iteration is the head of the remaining
list) as a string; when `"-c"` is the final element, `sys.argv[index + 1]`
raises `IndexError`, modelled as `none`. -/
def numClientsGo : List String → (String ⊕ Nat) → Option (String ⊕ Nat)
  | [], acc => some acc
  | a :: rest, acc =>
    if a = "-c" then
      match rest with
      | [] => none
      | next :: _ => numClientsGo rest (Sum.inl next)
    else numClientsGo rest acc

/-- The value bound to `num_clients` by the loop in
`Reporter.log_start_testrun`, starting from the integer default 1. -/
def numClients (argv : List String) : Option (String ⊕ Nat) :=
  numClientsGo argv (Sum.inr 1)

/-- Method `Reporter.log_start_testrun` (reporter.py lines 155-169): insert
the testrun row and a started event; `none` when the `num_clients` scan
raises `IndexError`. -/
def log_start_testrun (r : Reporter) (now : Nat) (s : RState) : Option RState :=
  match numClients r.argv with
  | none => none
  | some nc =>
    some { s with db := s.db ++
        [DbWrite.testrunInsert r.run_id r.testplan r.profile_name nc r.rps r.description,
         DbWrite.eventsInsert now (r.testplan ++ " started")] }

/-- Constructor `Reporter.__init__` (reporter.py lines 55-87), in source
order: connect (fatal on failure, after logging guidance), assert the
testplan is non-empty, spawn the background flusher, choose the run id, on
a non-slave write the run-start records, then register the event handlers
and the atexit hook. -/
def pyInit (testplan profile_name description : String) (argv : List String)
    (grafanaUrl hostname rps : String) (envRunId now : Nat)
    (connectOk : Bool) : InitResult :=
  if !connectOk then
    { state := { errors := [pgEnvGuidanceMsg] }, reporter := none,
      err := some PyErr.connectError }
  else
    let s0 : RState := { connOpened := true }
    if testplan = "" then
      { state := s0, reporter := none, err := some PyErr.assertionError }
    else
      let r : Reporter :=
        { testplan := testplan, profile_name := profile_name,
          description := description, argv := argv, grafanaUrl := grafanaUrl,
          hostname := hostname, rps := rps,
          run_id := initRunId argv envRunId now }
      if isSlave argv then
        { state := { s0 with handlersRegistered := true, atexitRegistered := true },
          reporter := some r, err := none }
      else
        match log_start_testrun r now s0 with
        | none => { state := s0, reporter := none, err := some PyErr.indexError }
        | some s1 =>
          { state := { s1 with handlersRegistered := true, atexitRegistered := true },
            reporter := some r, err := none }

/-- One step executed on the single cooperative execution context after
construction: a success notification, a failure notification, or one
iteration of the background flusher loop body. -/
inductive Activity
  | logSuccess (request_type name : String) (response_time response_length : Int)
      (gid : Int) (time : Nat)
  | logFailure (request_type name : String) (response_time : Int)
      (exc : Option PyExc) (gid : Int) (time : Nat)
  | tick (ok : Bool)
deriving Repr, DecidableEq

/-- Apply one activity step to the reporter state. -/
def applyActivity (r : Reporter) (s : RState) : Activity → RState
  | Activity.logSuccess rt n rtime rlen gid time => request_success r rt n rtime rlen gid time s
  | Activity.logFailure rt n rtime exc gid time => request_failure r rt n rtime exc gid time s
  | Activity.tick ok => flusherTick ok s

/-- Run a trace of activity steps, in order, on one execution context. -/
def runActivities (r : Reporter) (acts : List Activity) (s : RState) : RState :=
  acts.foldl (applyActivity r) s

/-- The samples appended by a trace of activity steps, in trace order. -/
def activitySamples (r : Reporter) : List Activity → List Sample
  | [] => []
  | Activity.logSuccess rt n rtime rlen gid time :: rest =>
    successSample r rt n rtime rlen gid time :: activitySamples r rest
  | Activity.logFailure rt n rtime exc gid time :: rest =>
    failureSample r rt n rtime exc gid time :: activitySamples r rest
  | Activity.tick _ :: rest => activitySamples r rest

/-- A full reporter lifecycle: construction, a trace of activity steps, then
the quitting notification (which joins the flusher and runs the exit
sequence).  Returns `none` when construction raised. -/
def fullRun (testplan profile_name description : String) (argv : List String)
    (grafanaUrl hostname rps : String) (envRunId now endTime : Nat)
    (acts : List Activity) (joinOk : Bool) : Option RState :=
  let res := pyInit testplan profile_name description argv grafanaUrl hostname rps envRunId now true
  match res.reporter with
  | some r => some (quittingFn r joinOk endTime (runActivities r acts res.state))
  | none => none

/-- Whether a database write is the run-start insert into `testrun`. -/
def isStartWrite : DbWrite → Bool
  | DbWrite.testrunInsert _ _ _ _ _ _ => true
  | _ => false

/-- Whether a database write is the run-end update of `testrun`. -/
def isEndWrite : DbWrite → Bool
  | DbWrite.testrunUpdate _ _ => true
  | _ => false

/-- Number of run-start writes in a database journal. -/
def countStarts (db : List DbWrite) : Nat :=
  (db.filter isStartWrite).length

/-- Number of run-end writes in a database journal. -/
def countEnds (db : List DbWrite) : Nat :=
  (db.filter isEndWrite).length

/-- Repeatedly hand one epoch of appended samples to the flusher: append the
epoch to the buffer, then run one flusher iteration whose database write
succeeds exactly when the paired flag is true. -/
def flushEpochs : List (List Sample × Bool) → RState → RState
  | [], s => s
  | (epoch, ok) :: rest, s =>
    flushEpochs rest (flusherTick ok { s with samples := s.samples ++ epoch })

/-- A concrete reporter configuration used by counterexamples and
witnesses. -/
def cexWitnessReporter : Reporter :=
  { testplan := "plan", profile_name := "", description := "",
    argv := ["locust"], grafanaUrl := "http://grafana", hostname := "host",
    rps := "0", run_id := 0 }

@[simp]
theorem countStarts_nil : countStarts [] = 0 := rfl

@[simp]
theorem countEnds_nil : countEnds [] = 0 := rfl

@[simp]
theorem countStarts_append (l1 l2 : List DbWrite) :
    countStarts (l1 ++ l2) = countStarts l1 + countStarts l2 := by
  simp [countStarts, List.filter_append]

@[simp]
theorem countEnds_append (l1 l2 : List DbWrite) :
    countEnds (l1 ++ l2) = countEnds l1 + countEnds l2 := by
  simp [countEnds, List.filter_append]

theorem write_samples_to_db_proj (ok : Bool) (b : List Sample) (s : RState) :
    (write_samples_to_db ok b s).samples = s.samples ∧
    (write_samples_to_db ok b s).drained = s.drained ∧
    (write_samples_to_db ok b s).finished = s.finished ∧
    (write_samples_to_db ok b s).connClosed = s.connClosed ∧
    countStarts (write_samples_to_db ok b s).db = countStarts s.db ∧
    countEnds (write_samples_to_db ok b s).db = countEnds s.db := by
  unfold write_samples_to_db
  split <;> simp [countStarts, countEnds, List.filter_append, isStartWrite, isEndWrite]

theorem drainAndWrite_proj (ok : Bool) (s : RState) :
    (drainAndWrite ok s).samples = [] ∧
    (drainAndWrite ok s).drained = s.drained ++ [s.samples] ∧
    (drainAndWrite ok s).finished = s.finished ∧
    (drainAndWrite ok s).connClosed = s.connClosed ∧
    countStarts (drainAndWrite ok s).db = countStarts s.db ∧
    countEnds (drainAndWrite ok s).db = countEnds s.db := by
  unfold drainAndWrite
  have h := write_samples_to_db_proj ok s.samples
    { s with samples := [], drained := s.drained ++ [s.samples] }
  simpa using h

theorem flusherTick_samples (ok : Bool) (s : RState) :
    (flusherTick ok s).samples = [] := by
  unfold flusherTick
  split
  · next h => simpa [List.isEmpty_iff] using h
  · exact (drainAndWrite_proj ok s).1

theorem flusherTick_counts (ok : Bool) (s : RState) :
    countStarts (flusherTick ok s).db = countStarts s.db ∧
    countEnds (flusherTick ok s).db = countEnds s.db ∧
    (flusherTick ok s).connClosed = s.connClosed ∧
    (flusherTick ok s).finished = s.finished := by
  unfold flusherTick
  split
  · exact ⟨rfl, rfl, rfl, rfl⟩
  · have h := drainAndWrite_proj ok s
    exact ⟨h.2.2.2.2.1, h.2.2.2.2.2, h.2.2.2.1, h.2.2.1⟩

theorem applyActivity_counts (r : Reporter) (s : RState) (a : Activity) :
    countStarts (applyActivity r s a).db = countStarts s.db ∧
    countEnds (applyActivity r s a).db = countEnds s.db ∧
    (applyActivity r s a).connClosed = s.connClosed := by
  cases a with
  | logSuccess rt n rtime rlen gid time =>
    simp [applyActivity, request_success]
  | logFailure rt n rtime exc gid time =>
    simp [applyActivity, request_failure]
  | tick ok =>
    have h := flusherTick_counts ok s
    exact ⟨h.1, h.2.1, h.2.2.1⟩

theorem runActivities_counts (r : Reporter) (acts : List Activity) (s : RState) :
    countStarts (runActivities r acts s).db = countStarts s.db ∧
    countEnds (runActivities r acts s).db = countEnds s.db ∧
    (runActivities r acts s).connClosed = s.connClosed := by
  induction acts generalizing s with
  | nil => exact ⟨rfl, rfl, rfl⟩
  | cons a rest ih =>
    have h1 := applyActivity_counts r s a
    have h2 := ih (applyActivity r s a)
    have hfold : runActivities r (a :: rest) s = runActivities r rest (applyActivity r s a) := rfl
    rw [hfold]
    exact ⟨h2.1.trans h1.1, h2.2.1.trans h1.2.1, h2.2.2.trans h1.2.2⟩

theorem runFlusherLoop_finished (ok : Bool) (s : RState) (h : s.finished = true) :
    ∃ s2 n, runFlusherLoop ok 2 s = some (s2, n) ∧ 1 ≤ n ∧ s2.samples = [] ∧
      (s2 = s ∨ s2 = drainAndWrite ok s) := by
  by_cases he : s.samples.isEmpty
  · refine ⟨s, 1, ?_, le_refl 1, ?_, Or.inl rfl⟩
    · simp [runFlusherLoop, he, h]
    · simpa [List.isEmpty_iff] using he
  · have hd := drainAndWrite_proj ok s
    refine ⟨drainAndWrite ok s, 2, ?_, by omega, hd.1, Or.inr rfl⟩
    have h1 : (drainAndWrite ok s).samples.isEmpty := by simp [hd.1]
    have h2 : (drainAndWrite ok s).finished = true := hd.2.2.1.trans h
    simp [runFlusherLoop, he, h1, h2]

theorem exitR_counts (r : Reporter) (t : Nat) (s : RState) (h : s.connClosed = false) :
    countStarts (exitR r t s).db = countStarts s.db ∧
    countEnds (exitR r t s).db = countEnds s.db + (if isSlave r.argv then 0 else 1) := by
  unfold exitR log_stop_test_run
  split
  · simp
  · simp [h, countStarts, countEnds, List.filter_append, isStartWrite, isEndWrite]

theorem quittingFn_counts (r : Reporter) (ok : Bool) (t : Nat) (s : RState)
    (h : s.connClosed = false) :
    countStarts (quittingFn r ok t s).db = countStarts s.db ∧
    countEnds (quittingFn r ok t s).db = countEnds s.db + (if isSlave r.argv then 0 else 1) := by
  unfold quittingFn
  set s1 : RState := { s with finished := true, atexitRegistered := false } with hs1
  obtain ⟨s2, n, hloop, _, _, hcase⟩ := runFlusherLoop_finished ok s1 rfl
  simp only [hloop]
  have hcc : s2.connClosed = false := by
    rcases hcase with hc | hc <;> rw [hc]
    · exact h
    · exact ((drainAndWrite_proj ok s1).2.2.2.1).trans h
  have hdb : countStarts s2.db = countStarts s.db ∧ countEnds s2.db = countEnds s.db := by
    rcases hcase with hc | hc <;> rw [hc]
    · exact ⟨rfl, rfl⟩
    · have hd := drainAndWrite_proj ok s1
      exact ⟨hd.2.2.2.2.1, hd.2.2.2.2.2⟩
  have he := exitR_counts r t s2 hcc
  exact ⟨he.1.trans hdb.1, by rw [he.2, hdb.2]⟩

theorem pyInit_slave (tp pn d : String) (argv : List String) (g hn rps : String)
    (env now : Nat) (htp : tp ≠ "") (hsl : isSlave argv = true) :
    pyInit tp pn d argv g hn rps env now true =
    { state := { connOpened := true, handlersRegistered := true, atexitRegistered := true },
      reporter := some
        { testplan := tp, profile_name := pn, description := d, argv := argv,
          grafanaUrl := g, hostname := hn, rps := rps,
          run_id := initRunId argv env now },
      err := none } := by
  simp [pyInit, htp, hsl]

theorem pyInit_coordinator (tp pn d : String) (argv : List String) (g hn rps : String)
    (env now : Nat) (nc : String ⊕ Nat) (htp : tp ≠ "") (hsl : isSlave argv = false)
    (hnc : numClients argv = some nc) :
    pyInit tp pn d argv g hn rps env now true =
    { state := { connOpened := true, handlersRegistered := true, atexitRegistered := true,
                 db := [DbWrite.testrunInsert (initRunId argv env now) tp pn nc rps d,
                        DbWrite.eventsInsert now (tp ++ " started")] },
      reporter := some
        { testplan := tp, profile_name := pn, description := d, argv := argv,
          grafanaUrl := g, hostname := hn, rps := rps,
          run_id := initRunId argv env now },
      err := none } := by
  simp [pyInit, htp, hsl, log_start_testrun, hnc]

theorem pyInit_coordinator_fail (tp pn d : String) (argv : List String)
    (g hn rps : String) (env now : Nat) (htp : tp ≠ "") (hsl : isSlave argv = false)
    (hnc : numClients argv = none) :
    pyInit tp pn d argv g hn rps env now true =
    { state := { connOpened := true }, reporter := none,
      err := some PyErr.indexError } := by
  simp [pyInit, htp, hsl, log_start_testrun, hnc]

theorem pyInit_reporter_ok (tp pn d : String) (argv : List String)
    (g hn rps : String) (env now : Nat) (r : Reporter)
    (hr : (pyInit tp pn d argv g hn rps env now true).reporter = some r) :
    r.argv = argv ∧ r.run_id = initRunId argv env now ∧
    (pyInit tp pn d argv g hn rps env now true).state.connClosed = false ∧
    countStarts (pyInit tp pn d argv g hn rps env now true).state.db =
      (if isSlave argv then 0 else 1) ∧
    countEnds (pyInit tp pn d argv g hn rps env now true).state.db = 0 := by
  by_cases htp : tp = ""
  · rw [htp] at hr
    simp [pyInit] at hr
  · by_cases hsl : isSlave argv = true
    · rw [pyInit_slave tp pn d argv g hn rps env now htp hsl] at hr ⊢
      simp only [Option.some.injEq] at hr
      subst hr
      simp [hsl, countStarts, countEnds]
    · have hsl' : isSlave argv = false := by simpa using hsl
      cases hnc : numClients argv with
      | none =>
        rw [pyInit_coordinator_fail tp pn d argv g hn rps env now htp hsl' hnc] at hr
        simp at hr
      | some nc =>
        rw [pyInit_coordinator tp pn d argv g hn rps env now nc htp hsl' hnc] at hr ⊢
        simp only [Option.some.injEq] at hr
        subst hr
        simp [hsl', countStarts, countEnds, isStartWrite, isEndWrite]

theorem activitySamples_append (r : Reporter) (l1 l2 : List Activity) :
    activitySamples r (l1 ++ l2) = activitySamples r l1 ++ activitySamples r l2 := by
  induction l1 with
  | nil => rfl
  | cons a rest ih => cases a <;> simp [activitySamples, ih]

theorem runActivities_partition (r : Reporter) (acts : List Activity) (s : RState) :
    (runActivities r acts s).drained.flatten ++ (runActivities r acts s).samples =
      s.drained.flatten ++ (s.samples ++ activitySamples r acts) := by
  induction acts generalizing s with
  | nil => simp [runActivities, activitySamples]
  | cons a rest ih =>
    have hfold : runActivities r (a :: rest) s = runActivities r rest (applyActivity r s a) := rfl
    rw [hfold, ih]
    cases a with
    | logSuccess rt n rtime rlen gid time =>
      simp [applyActivity, request_success, activitySamples]
    | logFailure rt n rtime exc gid time =>
      simp [applyActivity, request_failure, activitySamples]
    | tick ok =>
      by_cases he : s.samples.isEmpty
      · have hnil : s.samples = [] := by simpa [List.isEmpty_iff] using he
        simp [applyActivity, flusherTick, he, activitySamples, hnil]
      · have hd := drainAndWrite_proj ok s
        simp [applyActivity, flusherTick, he, activitySamples, hd.1, hd.2.1]

/-- C1: over every trace of sample appends interleaved with flusher drains
on the single cooperative execution context, starting from an empty buffer:
the concatenation of all drained batches followed by the still-buffered
tail equals the append sequence in append order, and after one further
drain (which takes the entire remaining epoch and leaves the buffer empty)
the concatenation of the drained batches alone equals the full append
sequence; hence no sample is observed by two drains and none is lost. -/
theorem drain_batches_partition_appends (r : Reporter) (acts : List Activity)
    (s : RState) (ok : Bool) (hsam : s.samples = []) (hdr : s.drained = []) :
    (runActivities r acts s).drained.flatten ++ (runActivities r acts s).samples =
        activitySamples r acts ∧
    (runActivities r (acts ++ [Activity.tick ok]) s).samples = [] ∧
    (runActivities r (acts ++ [Activity.tick ok]) s).drained.flatten = activitySamples r acts := by
  have h1 := runActivities_partition r acts s
  rw [hsam, hdr] at h1
  simp only [List.flatten_nil, List.nil_append] at h1
  have hext : runActivities r (acts ++ [Activity.tick ok]) s
      = flusherTick ok (runActivities r acts s) := by
    simp [runActivities, List.foldl_append, applyActivity]
  have hsext : (runActivities r (acts ++ [Activity.tick ok]) s).samples = [] := by
    rw [hext]; exact flusherTick_samples ok _
  refine ⟨h1, hsext, ?_⟩
  have h2 := runActivities_partition r (acts ++ [Activity.tick ok]) s
  rw [hsam, hdr, activitySamples_append] at h2
  simp only [List.flatten_nil, List.nil_append, activitySamples, List.append_nil] at h2
  rw [hsext, List.append_nil] at h2
  exact h2

/-- C1 witness: a concrete trace of two appends, a drain, one more append
and a final drain on the default initial state. -/
theorem drain_batches_partition_appends_witness :
    (runActivities cexWitnessReporter
        [Activity.logSuccess "GET" "/a" 10 5 0 0, Activity.tick true,
         Activity.logFailure "GET" "/b" 20 (some ⟨"boom"⟩) 0 1]
        {}).drained.flatten ++
      (runActivities cexWitnessReporter
        [Activity.logSuccess "GET" "/a" 10 5 0 0, Activity.tick true,
         Activity.logFailure "GET" "/b" 20 (some ⟨"boom"⟩) 0 1]
        {}).samples =
      activitySamples cexWitnessReporter
        [Activity.logSuccess "GET" "/a" 10 5 0 0, Activity.tick true,
         Activity.logFailure "GET" "/b" 20 (some ⟨"boom"⟩) 0 1] :=
  (drain_batches_partition_appends cexWitnessReporter
    [Activity.logSuccess "GET" "/a" 10 5 0 0, Activity.tick true,
     Activity.logFailure "GET" "/b" 20 (some ⟨"boom"⟩) 0 1]
    {} true rfl rfl).1

/-- C2 counterexample: a success notification with a negative reported
response length yields a sample whose success flag is 1 (true) while its
response_length is null, so response_length being null is not equivalent to
the success flag being false; and a failure notification whose exception
argument is None yields a sample whose success flag is 0 while its
exception is null, so exception being null is not equivalent to the success
flag being true. -/
theorem sample_null_invariant_cex :
    ¬ ((((successSample cexWitnessReporter "GET" "/a" 10 (-1) 0 0).response_length = none) ↔
        ((successSample cexWitnessReporter "GET" "/a" 10 (-1) 0 0).success = 0)) ∧
       (((failureSample cexWitnessReporter "GET" "/a" 10 none 0 0).exception = none) ↔
        ((failureSample cexWitnessReporter "GET" "/a" 10 none 0 0).success = 1))) := by
  decide

/-- C2 amended: for success notifications whose reported response length is
non-negative and failure notifications that carry an exception object, the
constructed sample satisfies the invariant: response_length is null exactly
when the success flag is 0 and exception is null exactly when the success
flag is 1.  (A success notification with a negative length gives a null
response_length with success 1, and a failure notification without an
exception object gives a null exception with success 0.) -/
theorem sample_null_invariant_amended (r : Reporter) (rt n : String)
    (rtime rlen : Int) (gid : Int) (time : Nat) (e : PyExc) (hlen : 0 ≤ rlen) :
    ((((successSample r rt n rtime rlen gid time).response_length = none) ↔
        ((successSample r rt n rtime rlen gid time).success = 0)) ∧
      (((successSample r rt n rtime rlen gid time).exception = none) ↔
        ((successSample r rt n rtime rlen gid time).success = 1))) ∧
    ((((failureSample r rt n rtime (some e) gid time).response_length = none) ↔
        ((failureSample r rt n rtime (some e) gid time).success = 0)) ∧
      (((failureSample r rt n rtime (some e) gid time).exception = none) ↔
        ((failureSample r rt n rtime (some e) gid time).success = 1))) := by
  constructor
  · constructor
    · simp [successSample, mkSample, hlen]
    · simp [successSample, mkSample]
  · constructor
    · simp [failureSample, mkSample]
    · simp [failureSample, mkSample]

/-- C2 witness: the amended invariant evaluated at a success notification
with response length 150 and a failure notification with an exception. -/
theorem sample_null_invariant_amended_witness :
    ((((successSample cexWitnessReporter "GET" "/a" 10 150 0 0).response_length = none) ↔
        ((successSample cexWitnessReporter "GET" "/a" 10 150 0 0).success = 0)) ∧
      (((successSample cexWitnessReporter "GET" "/a" 10 150 0 0).exception = none) ↔
        ((successSample cexWitnessReporter "GET" "/a" 10 150 0 0).success = 1))) ∧
    ((((failureSample cexWitnessReporter "GET" "/a" 10 (some ⟨"boom"⟩) 0 0).response_length = none) ↔
        ((failureSample cexWitnessReporter "GET" "/a" 10 (some ⟨"boom"⟩) 0 0).success = 0)) ∧
      (((failureSample cexWitnessReporter "GET" "/a" 10 (some ⟨"boom"⟩) 0 0).exception = none) ↔
        ((failureSample cexWitnessReporter "GET" "/a" 10 (some ⟨"boom"⟩) 0 0).success = 1))) :=
  sample_null_invariant_amended cexWitnessReporter "GET" "/a" 10 150 0 0 ⟨"boom"⟩ (by decide)

/-- C3 counterexample: with invocation arguments containing the leader
marker `--master` (so the process is a coordinator, not a follower), the
run id is taken from the externally supplied identifier (5), not generated
from the wall clock (7). -/
theorem run_id_source_cex :
    isSlave ["locust", "--master"] = false ∧ isMaster ["locust", "--master"] = true ∧
    initRunId ["locust", "--master"] 5 7 = 5 ∧ initRunId ["locust", "--master"] 5 7 ≠ 7 := by
  decide

/-- C3 amended: at reporter construction the run id is parsed from the
externally supplied run identifier whenever the process is a distributed
participant OR a distributed leader (the swarm generates the id for master
and slaves alike); only a standalone run (neither marker present) generates
the run id from the current wall clock; and a constructed reporter carries
exactly this run id. -/
theorem run_id_source_amended (argv : List String) (env now : Nat) :
    ((isSlave argv = true ∨ isMaster argv = true) → initRunId argv env now = env) ∧
    (isSlave argv = false → isMaster argv = false → initRunId argv env now = now) ∧
    (∀ (tp pn d g hn rps : String) (r : Reporter),
      (pyInit tp pn d argv g hn rps env now true).reporter = some r →
      r.run_id = initRunId argv env now) := by
  refine ⟨?_, ?_, ?_⟩
  · intro h
    unfold initRunId
    rcases h with h | h <;> simp [h]
  · intro h1 h2
    simp [initRunId, h1, h2]
  · intro tp pn d g hn rps r hr
    exact (pyInit_reporter_ok tp pn d argv g hn rps env now r hr).2.1

/-- C3 witness: a follower run takes the external identifier and a
standalone run takes the wall clock. -/
theorem run_id_source_amended_witness :
    initRunId ["locust", "--slave"] 3 9 = 3 ∧ initRunId ["locust"] 3 9 = 9 :=
  ⟨(run_id_source_amended ["locust", "--slave"] 3 9).1 (Or.inl (by decide)),
   (run_id_source_amended ["locust"] 3 9).2.1 (by decide) (by decide)⟩

/-- C4: running the exit sequence twice in succession adds no database
write the second time (the run-end update is attempted on a closed cursor,
raising a psycopg2 InterfaceError that the except clause catches and logs),
raises no error (the exit sequence is a total function of the state), and
the storage close is idempotent: the connection is closed after the first
call and stays closed after the second. -/
theorem exit_twice_no_duplicate_end (r : Reporter) (t1 t2 : Nat) (s : RState) :
    (exitR r t2 (exitR r t1 s)).db = (exitR r t1 s).db ∧
    (exitR r t1 s).connClosed = true ∧
    (exitR r t2 (exitR r t1 s)).connClosed = true := by
  refine ⟨?_, ?_, ?_⟩
  · unfold exitR log_stop_test_run
    split <;> simp
  · unfold exitR
    split <;> rfl
  · unfold exitR
    split <;> rfl

/-- C7: the report line logged at shutdown by log_stop_test_run follows the
template base, var-testplan, from equal to the run-start timestamp in
milliseconds and to equal to the run-end timestamp in milliseconds plus
1000. -/
theorem dashboard_url_window (r : Reporter) (endTime : Nat) (s : RState) :
    (log_stop_test_run r endTime s).infos = s.infos ++
      ["Report: " ++ r.grafanaUrl ++ "&var-testplan=" ++ r.testplan ++
       "&from=" ++ toString (r.run_id * 1000) ++
       "&to=" ++ toString (endTime * 1000 + 1000) ++ "\n"] := by
  have h1000 : (endTime + 1) * 1000 = endTime * 1000 + 1000 := by ring
  unfold log_stop_test_run
  split <;> simp [dashboardReportLine, h1000]

/-- C6: the quitting notification sets the finished flag and then joins the
background flusher: the flusher loop runs at least one more iteration
(examining and, when non-empty, draining the buffer; when the final epoch
is empty that last drain attempt yields zero samples), the loop exits with
an empty buffer, and only then is the exit sequence invoked, on the state
in which the flusher has exited. -/
theorem quitting_joins_flusher (r : Reporter) (ok : Bool) (endTime : Nat) (s : RState) :
    ∃ s2 iters,
      runFlusherLoop ok 2 { s with finished := true, atexitRegistered := false } =
          some (s2, iters) ∧
      1 ≤ iters ∧ s2.samples = [] ∧
      quittingFn r ok endTime s = exitR r endTime s2 := by
  obtain ⟨s2, n, hloop, hn, hs, _⟩ :=
    runFlusherLoop_finished ok { s with finished := true, atexitRegistered := false } rfl
  exact ⟨s2, n, hloop, hn, hs, by unfold quittingFn; simp only [hloop]⟩

/-- C8: over any sequence of epochs handed to the flusher with a
per-epoch write success oracle, a failed batch write only appends an error
log entry and drops the batch (the buffer is left empty, nothing is
requeued), no error propagates (the flusher is a total function of the
state), and every subsequent non-empty epoch whose write succeeds still
reaches the database. -/
theorem write_failure_drops_batch (work : List (List Sample × Bool)) (s : RState)
    (hsam : s.samples = []) (hcc : s.connClosed = false) :
    (flushEpochs work s).samples = [] ∧
    (flushEpochs work s).connClosed = false ∧
    (flushEpochs work s).db = s.db ++
      (work.filter (fun p => !p.1.isEmpty && p.2)).map (fun p => DbWrite.requestBatch p.1) ∧
    (flushEpochs work s).errors = s.errors ++
      (work.filter (fun p => !p.1.isEmpty && !p.2)).map (fun _ => samplesWriteFailMsg) := by
  induction work generalizing s with
  | nil => simp [flushEpochs, hsam, hcc]
  | cons p rest ih =>
    obtain ⟨epoch, ok⟩ := p
    have hrec : ({ s with samples := s.samples ++ epoch } : RState)
        = { s with samples := epoch } := by
      rw [hsam, List.nil_append]
    have hstep : flushEpochs ((epoch, ok) :: rest) s
        = flushEpochs rest (flusherTick ok { s with samples := epoch }) := by
      show flushEpochs rest (flusherTick ok { s with samples := s.samples ++ epoch }) = _
      rw [hrec]
    by_cases hep : epoch = []
    · subst hep
      have heq : flusherTick ok ({ s with samples := ([] : List Sample) } : RState)
          = { s with samples := [] } := rfl
      rw [hstep, heq]
      have ihs := ih { s with samples := [] } rfl hcc
      simpa [List.filter_cons] using ihs
    · have hepb : ¬ (({ s with samples := epoch } : RState).samples.isEmpty = true) := by
        simpa [List.isEmpty_iff] using hep
      have htick : flusherTick ok ({ s with samples := epoch } : RState)
          = write_samples_to_db ok epoch
              { s with samples := [], drained := s.drained ++ [epoch] } := by
        unfold flusherTick
        rw [if_neg hepb]
        rfl
      cases ok with
      | true =>
        have hcond : ¬ ((({ s with samples := [], drained := s.drained ++ [epoch] } : RState).connClosed || !true) = true) := by
          simp [hcc]
        have hw : write_samples_to_db true epoch
              ({ s with samples := [], drained := s.drained ++ [epoch] } : RState)
            = { s with samples := [], drained := s.drained ++ [epoch], db := s.db ++ [DbWrite.requestBatch epoch] } := by
          unfold write_samples_to_db
          rw [if_neg hcond]
        rw [hstep, htick, hw]
        have ihs := ih { s with samples := [], drained := s.drained ++ [epoch], db := s.db ++ [DbWrite.requestBatch epoch] } rfl hcc
        simpa [List.filter_cons, hep, List.append_assoc] using ihs
      | false =>
        have hcond : ((({ s with samples := [], drained := s.drained ++ [epoch] } : RState).connClosed || !false) = true) := by
          simp
        have hw : write_samples_to_db false epoch
              ({ s with samples := [], drained := s.drained ++ [epoch] } : RState)
            = { s with samples := [], drained := s.drained ++ [epoch], errors := s.errors ++ [samplesWriteFailMsg] } := by
          unfold write_samples_to_db
          rw [if_pos hcond]
        rw [hstep, htick, hw]
        have ihs := ih { s with samples := [], drained := s.drained ++ [epoch], errors := s.errors ++ [samplesWriteFailMsg] } rfl hcc
        simpa [List.filter_cons, hep, List.append_assoc] using ihs

/-- C8 witness: a two-epoch run in which the first write fails and the
second succeeds; the failed batch is dropped with one error log entry and
the flusher continues, writing the second epoch. -/
theorem write_failure_drops_batch_witness :
    (flushEpochs
        [([successSample cexWitnessReporter "GET" "/a" 10 5 0 0], false),
         ([successSample cexWitnessReporter "GET" "/b" 20 6 0 1], true)] {}).samples = [] ∧
    (flushEpochs
        [([successSample cexWitnessReporter "GET" "/a" 10 5 0 0], false),
         ([successSample cexWitnessReporter "GET" "/b" 20 6 0 1], true)] {}).db =
      [DbWrite.requestBatch [successSample cexWitnessReporter "GET" "/b" 20 6 0 1]] ∧
    (flushEpochs
        [([successSample cexWitnessReporter "GET" "/a" 10 5 0 0], false),
         ([successSample cexWitnessReporter "GET" "/b" 20 6 0 1], true)] {}).errors =
      [samplesWriteFailMsg] := by
  have h := write_failure_drops_batch
    [([successSample cexWitnessReporter "GET" "/a" 10 5 0 0], false),
     ([successSample cexWitnessReporter "GET" "/b" 20 6 0 1], true)] {} rfl rfl
  exact ⟨h.1, h.2.2.1, h.2.2.2⟩

/-- C9: constructing a reporter with an empty testplan string raises the
assertion error, and it does so after the storage connection is opened but
before any handler or exit hook is registered and before any run-start
record is written (the resulting state has only the connection opened and
an empty database journal); with any non-empty testplan the assertion
passes. -/
theorem empty_testplan_asserts (pn d : String) (argv : List String)
    (g hn rps : String) (env now : Nat) :
    (pyInit "" pn d argv g hn rps env now true =
      { state := { connOpened := true }, reporter := none,
        err := some PyErr.assertionError }) ∧
    (∀ tp : String, tp ≠ "" →
      (pyInit tp pn d argv g hn rps env now true).err ≠ some PyErr.assertionError) := by
  constructor
  · simp [pyInit]
  · intro tp htp
    by_cases hsl : isSlave argv = true
    · rw [pyInit_slave tp pn d argv g hn rps env now htp hsl]
      simp
    · have hsl' : isSlave argv = false := by simpa using hsl
      cases hnc : numClients argv with
      | none =>
        rw [pyInit_coordinator_fail tp pn d argv g hn rps env now htp hsl' hnc]
        simp
      | some nc =>
        rw [pyInit_coordinator tp pn d argv g hn rps env now nc htp hsl' hnc]
        simp

/-- C9 witness: with an empty testplan construction raises the assertion
error; with testplan "plan" it does not. -/
theorem empty_testplan_asserts_witness :
    (pyInit "" "" "" ["locust"] "g" "h" "0" 0 0 true).err = some PyErr.assertionError ∧
    (pyInit "plan" "" "" ["locust"] "g" "h" "0" 0 0 true).err ≠ some PyErr.assertionError := by
  constructor
  · rw [(empty_testplan_asserts "" "" ["locust"] "g" "h" "0" 0 0).1]
  · exact (empty_testplan_asserts "" "" ["locust"] "g" "h" "0" 0 0).2 "plan" (by decide)

theorem numClientsGo_nil (acc : String ⊕ Nat) : numClientsGo [] acc = some acc := rfl

theorem numClientsGo_cons_flag (next : String) (rest : List String) (acc : String ⊕ Nat) :
    numClientsGo ("-c" :: next :: rest) acc = numClientsGo (next :: rest) (Sum.inl next) := rfl

theorem numClientsGo_flag_nil (acc : String ⊕ Nat) : numClientsGo ["-c"] acc = none := rfl

theorem numClientsGo_cons_other (a : String) (rest : List String) (acc : String ⊕ Nat)
    (ha : ¬ a = "-c") : numClientsGo (a :: rest) acc = numClientsGo rest acc := by
  cases rest with
  | nil => simp [numClientsGo, ha]
  | cons b tail => simp [numClientsGo, ha]

theorem numClientsGo_no_flag (l : List String) (h : "-c" ∉ l) :
    ∀ acc, numClientsGo l acc = some acc := by
  induction l with
  | nil => intro acc; rfl
  | cons a rest ih =>
    intro acc
    have ha : ¬ a = "-c" := fun he => h (he ▸ List.mem_cons_self a rest)
    have hrest : "-c" ∉ rest := fun hm => h (List.mem_cons_of_mem a hm)
    rw [numClientsGo_cons_other a rest acc ha]
    exact ih hrest acc

theorem numClientsGo_last_flag (pre : List String) :
    ∀ acc, numClientsGo (pre ++ ["-c"]) acc = none := by
  induction pre with
  | nil => intro acc; exact numClientsGo_flag_nil acc
  | cons a pre ih =>
    intro acc
    by_cases ha : a = "-c"
    · subst ha
      cases hp : pre ++ ["-c"] with
      | nil => simp at hp
      | cons next tail =>
        have hcons : ("-c" :: pre) ++ ["-c"] = "-c" :: next :: tail := by
          rw [List.cons_append, hp]
        rw [hcons, numClientsGo_cons_flag next tail acc, ← hp]
        exact ih (Sum.inl next)
    · rw [List.cons_append, numClientsGo_cons_other a (pre ++ ["-c"]) acc ha]
      exact ih acc

theorem numClientsGo_after_last (pre : List String) (v : String) (post : List String)
    (h : "-c" ∉ v :: post) :
    ∀ acc, numClientsGo (pre ++ "-c" :: v :: post) acc = some (Sum.inl v) := by
  induction pre with
  | nil =>
    intro acc
    rw [List.nil_append, numClientsGo_cons_flag v post acc]
    exact numClientsGo_no_flag (v :: post) h (Sum.inl v)
  | cons a pre ih =>
    intro acc
    by_cases ha : a = "-c"
    · subst ha
      cases hp : pre ++ "-c" :: v :: post with
      | nil => simp at hp
      | cons next tail =>
        have hcons : ("-c" :: pre) ++ "-c" :: v :: post = "-c" :: next :: tail := by
          rw [List.cons_append, hp]
        rw [hcons, numClientsGo_cons_flag next tail acc, ← hp]
        exact ih (Sum.inl next)
    · rw [List.cons_append, numClientsGo_cons_other a (pre ++ "-c" :: v :: post) acc ha]
      exact ih acc

/-- C10: the client count recorded by the run-start write defaults to the
integer 1 when no "-c" flag is present; when "-c" occurs, the value is the
argument immediately following the LAST occurrence, taken verbatim as a
string (the `Sum.inl` side, no integer conversion or validation); and an
argument vector whose final element is "-c" makes the scan raise an
out-of-bounds IndexError (`none`) instead of falling back to the default;
the run-start insert records exactly this value and is not written at all
in the IndexError case. -/
theorem num_clients_last_flag :
    (∀ argv : List String, "-c" ∉ argv → numClients argv = some (Sum.inr 1)) ∧
    (∀ (pre : List String) (v : String) (post : List String), "-c" ∉ v :: post →
      numClients (pre ++ "-c" :: v :: post) = some (Sum.inl v)) ∧
    (∀ pre : List String, numClients (pre ++ ["-c"]) = none) ∧
    (∀ (r : Reporter) (now : Nat) (s : RState) (nc : String ⊕ Nat),
      numClients r.argv = some nc →
      log_start_testrun r now s = some { s with db := s.db ++
        [DbWrite.testrunInsert r.run_id r.testplan r.profile_name nc r.rps r.description,
         DbWrite.eventsInsert now (r.testplan ++ " started")] }) ∧
    (∀ (r : Reporter) (now : Nat) (s : RState),
      numClients r.argv = none → log_start_testrun r now s = none) := by
  refine ⟨?_, ?_, ?_, ?_, ?_⟩
  · intro argv h
    exact numClientsGo_no_flag argv h (Sum.inr 1)
  · intro pre v post h
    exact numClientsGo_after_last pre v post h (Sum.inr 1)
  · intro pre
    exact numClientsGo_last_flag pre (Sum.inr 1)
  · intro r now s nc hnc
    simp [log_start_testrun, hnc]
  · intro r now s hnc
    simp [log_start_testrun, hnc]

/-- C10 witness: no flag gives the integer default 1; the element after the
last of two "-c" occurrences is taken verbatim as a string; a trailing
"-c" gives the IndexError outcome. -/
theorem num_clients_last_flag_witness :
    numClients ["locust"] = some (Sum.inr 1) ∧
    numClients ["locust", "-c", "5", "-c", "7", "x"] = some (Sum.inl "7") ∧
    numClients ["locust", "-c"] = none :=
  ⟨num_clients_last_flag.1 ["locust"] (by decide),
   num_clients_last_flag.2.1 ["locust", "-c", "5"] "7" ["x"] (by decide),
   num_clients_last_flag.2.2.1 ["locust"]⟩

/-- C5: in every full reporter lifecycle (construction, an arbitrary trace
of notifications and flusher iterations, then quitting) that constructs
successfully, a slave (participant) reporter issues no run-start and no
run-end write, while a coordinator (standalone or master) issues exactly
one run-start and exactly one run-end write. -/
theorem lifecycle_writes_once (tp pn d : String) (argv : List String)
    (g hn rps : String) (env now endT : Nat) (acts : List Activity)
    (joinOk : Bool) (t : RState)
    (hft : fullRun tp pn d argv g hn rps env now endT acts joinOk = some t) :
    countStarts t.db = (if isSlave argv then 0 else 1) ∧
    countEnds t.db = (if isSlave argv then 0 else 1) := by
  unfold fullRun at hft
  cases hrep : (pyInit tp pn d argv g hn rps env now true).reporter with
  | none =>
    simp only [hrep] at hft
    exact Option.noConfusion hft
  | some r =>
    simp only [hrep, Option.some.injEq] at hft
    obtain ⟨hargv, _, hcc, hcs, hce⟩ :=
      pyInit_reporter_ok tp pn d argv g hn rps env now r hrep
    have hA := runActivities_counts r acts (pyInit tp pn d argv g hn rps env now true).state
    have hQ := quittingFn_counts r joinOk endT
      (runActivities r acts (pyInit tp pn d argv g hn rps env now true).state)
      (hA.2.2.trans hcc)
    rw [← hft]
    constructor
    · rw [hQ.1, hA.1, hcs]
    · rw [hQ.2, hA.2.1, hce, hargv]
      simp

/-- C5 witness: a concrete standalone (coordinator) lifecycle with an empty
activity trace issues exactly one run-start and one run-end write. -/
theorem lifecycle_writes_once_witness :
    countStarts ((fullRun "plan" "" "" ["locust"] "g" "h" "0" 0 0 0 [] true).getD {}).db = 1 ∧
    countEnds ((fullRun "plan" "" "" ["locust"] "g" "h" "0" 0 0 0 [] true).getD {}).db = 1 := by
  have h := lifecycle_writes_once "plan" "" "" ["locust"] "g" "h" "0" 0 0 0 [] true
    ((fullRun "plan" "" "" ["locust"] "g" "h" "0" 0 0 0 [] true).getD {}) rfl
  have hsl : isSlave ["locust"] = false := rfl
  rw [hsl] at h
  simpa using h
